import Mathlib

/-!
Verification of the `digital-human` streaming-conversation backend.

This file shallowly embeds, in Lean 4, the parts of the repository that the
frozen claims are about:

* `app/backend/services/vad_service.py` — the `VADSegmenter` state machine
  (`__init__`, `process_frame`, `reset`) and the `is_speech` methods of
  `SileroVAD` and `WebRTCVAD`;
* `app/backend/api/conversation.py` — the `process_speech_segment` inner
  function of the WebSocket handler and the pure turn-taking gate
  `should_llm_respond`.

Audio bytes are modelled as `List Nat`; the injected VAD classifier is an
explicit `Bool` (respectively an `Except`-valued oracle) parameter, matching
the dependency injection in the Python code.  Python exceptions raised by an
external service call are modelled as `Except` values; a `try/except` block
that swallows the exception becomes a `match` on that value.
-/

namespace DigitalHuman

/-! ### VADSegmenter (vad_service.py lines 217-315) -/

/-- State and configuration of `VADSegmenter`, as set up by `__init__`
(vad_service.py lines 222-256).  The derived fields `frame_size`,
`frame_bytes` and `padding_frames` are stored exactly as the constructor
computes them; the mutable state is `is_speaking`, `speech_frames`,
`silence_frames`. -/
structure VADSegmenter where
  sample_rate : Nat
  frame_duration_ms : Nat
  padding_duration_ms : Nat
  min_speech_duration_ms : Nat
  frame_size : Nat
  frame_bytes : Nat
  is_speaking : Bool
  speech_frames : List (List Nat)
  silence_frames : Nat
  padding_frames : Nat
deriving DecidableEq

/-- `VADSegmenter.__init__`: `frame_size = sample_rate * frame_duration_ms // 1000`,
`frame_bytes = frame_size * 2`, `padding_frames = padding_duration_ms // frame_duration_ms`,
and the fresh mutable state `is_speaking=False`, `speech_frames=[]`, `silence_frames=0`. -/
def mkVADSegmenter (sample_rate frame_duration_ms padding_duration_ms
    min_speech_duration_ms : Nat) : VADSegmenter :=
  { sample_rate := sample_rate
    frame_duration_ms := frame_duration_ms
    padding_duration_ms := padding_duration_ms
    min_speech_duration_ms := min_speech_duration_ms
    frame_size := sample_rate * frame_duration_ms / 1000
    frame_bytes := sample_rate * frame_duration_ms / 1000 * 2
    is_speaking := false
    speech_frames := []
    silence_frames := 0
    padding_frames := padding_duration_ms / frame_duration_ms }

/-- `VADSegmenter.reset` (vad_service.py lines 309-314), restricted to the
segmenter's own observable state (the call also forwards to the inner VAD
service's `reset`, which holds no state relevant to segmentation). -/
def vadSegReset (s : VADSegmenter) : VADSegmenter :=
  { s with is_speaking := false, speech_frames := [], silence_frames := 0 }

/-- `VADSegmenter.process_frame` (vad_service.py lines 258-307).  The first
argument is the value of `self.vad.is_speech(frame, self.sample_rate)` for
this frame (the classifier is injected, see `sileroIsSpeech` /
`webrtcIsSpeech` below).  Returns the new state together with the Python
return value `(is_speaking, speech_segment)`. -/
def processFrame (is_speech : Bool) (frame : List Nat) (s : VADSegmenter) :
    VADSegmenter × Bool × Option (List Nat) :=
  if is_speech then
    let s1 := { s with speech_frames := s.speech_frames ++ [frame] }
    let s2 := { s1 with silence_frames := 0 }
    ({ s2 with is_speaking := true }, true, none)
  else if s.is_speaking then
    let silence := s.silence_frames + 1
    let frames := s.speech_frames ++ [frame]
    if silence ≥ s.padding_frames then
      if frames.length * s.frame_duration_ms ≥ s.min_speech_duration_ms then
        (vadSegReset s, false, some frames.flatten)
      else
        (vadSegReset s, false, none)
    else
      let s1 := { s with speech_frames := frames }
      ({ s1 with silence_frames := silence }, true, none)
  else
    (s, false, none)

/-- Feed a list of `(classified-as-speech, frame-bytes)` pairs through
`process_frame`, collecting the `(is_speaking, speech_segment)` return value
of every call, in order. -/
def runSeg : VADSegmenter → List (Bool × List Nat) →
    VADSegmenter × List (Bool × Option (List Nat))
  | s, [] => (s, [])
  | s, (b, f) :: rest =>
    let step := processFrame b f s
    let cont := runSeg step.1 rest
    (cont.1, (step.2.1, step.2.2) :: cont.2)

/-- The input of claim C1: 20 frames of one byte each, the first 10 classified
as speech, the remaining 10 as silence. -/
def c1Inputs : List (Bool × List Nat) :=
  (List.range 20).map (fun i => (decide (i < 10), [i]))

/-! ### VAD classifiers (vad_service.py lines 35-153)

The external model calls (`self._model(audio_tensor, sample_rate)` for Silero,
`self.vad.is_speech(...)` for WebRTC) are injected as `Except`-valued oracles:
`Except.error` models the call raising an exception, which the surrounding
`try/except` of `is_speech` turns into the return value `False`. -/

/-- `SileroVAD.is_speech` (vad_service.py lines 69-88): the body of its
`try` block computes the model's speech probability and compares it to the
threshold; any exception in that block is caught and yields `False`. -/
def sileroIsSpeech (threshold : ℚ) (model : List Nat → Except String ℚ)
    (audio_chunk : List Nat) : Bool :=
  match model audio_chunk with
  | Except.ok speech_prob => decide (speech_prob > threshold)
  | Except.error _ => false

/-- The frame-size normalisation `WebRTCVAD.is_speech` performs before the
model call (vad_service.py lines 133-143): a chunk whose duration is not
10/20/30 ms is zero-padded or truncated to a 20 ms frame. -/
def webrtcPrepare (audio_chunk : List Nat) (sample_rate : Nat) : List Nat :=
  let frame_duration_ms := audio_chunk.length * 1000 / (sample_rate * 2)
  if frame_duration_ms = 10 ∨ frame_duration_ms = 20 ∨ frame_duration_ms = 30 then
    audio_chunk
  else
    let target_bytes := sample_rate * 20 / 1000 * 2
    if audio_chunk.length < target_bytes then
      audio_chunk ++ List.replicate (target_bytes - audio_chunk.length) 0
    else
      audio_chunk.take target_bytes

/-- `WebRTCVAD.is_speech` (vad_service.py lines 119-149): unsupported sample
rates are rejected with `False`; otherwise the (normalised) chunk is passed to
the WebRTC model, and any exception yields `False`. -/
def webrtcIsSpeech (vadModel : List Nat → Nat → Except String Bool)
    (audio_chunk : List Nat) (sample_rate : Nat) : Bool :=
  if sample_rate = 8000 ∨ sample_rate = 16000 ∨ sample_rate = 32000 ∨ sample_rate = 48000 then
    match vadModel (webrtcPrepare audio_chunk sample_rate) sample_rate with
    | Except.ok b => b
    | Except.error _ => false
  else
    false

/-! ### Python string primitives

`should_llm_respond` and `process_speech_segment` use `str.strip`,
`str.split()`, `str.lower`, `str.endswith` and the substring operator `in`.
They are modelled character-exactly on `List Char`. -/

/-- Python `str.strip()` with no argument: remove leading and trailing
whitespace. -/
def pyStrip (s : List Char) : List Char :=
  ((s.dropWhile Char.isWhitespace).reverse.dropWhile Char.isWhitespace).reverse

/-- Helper for `pyWords`: accumulate the current word (reversed) while
scanning. -/
def pyWordsAux : List Char → List Char → List (List Char)
  | cur, [] => if cur.isEmpty then [] else [cur.reverse]
  | cur, c :: rest =>
    if c.isWhitespace then
      if cur.isEmpty then pyWordsAux [] rest
      else cur.reverse :: pyWordsAux [] rest
    else
      pyWordsAux (c :: cur) rest

/-- Python `str.split()` with no argument: split on runs of whitespace,
discarding empty words. -/
def pyWords (s : List Char) : List (List Char) :=
  pyWordsAux [] s

/-- Python `str.lower()` (the strings involved are ASCII). -/
def pyLower (s : List Char) : List Char :=
  s.map Char.toLower

/-- Python `needle in hay` on strings: substring containment. -/
def pyContains (hay needle : List Char) : Bool :=
  match hay with
  | [] => needle.isEmpty
  | _ :: rest => needle.isPrefixOf hay || pyContains rest needle

/-- Python `s.endswith(c)` for a one-character suffix. -/
def pyEndsWith (s : List Char) (c : Char) : Bool :=
  match s.reverse with
  | [] => false
  | last :: _ => last == c

/-! ### Conversation pipeline (conversation.py lines 268-551) -/

/-- A conversation message as stored in `conversation_history` (role and
content; timestamps carry no information the claims are about). -/
structure Msg where
  role : List Char
  content : List Char
deriving DecidableEq

/-- The greeting phrases of `should_llm_respond` (conversation.py line 536). -/
def starters : List (List Char) :=
  ["hello".data, "hi".data, "hey".data, "good morning".data,
    "good afternoon".data, "good evening".data]

/-- The explicit-prompt phrases of `should_llm_respond` (conversation.py
line 541). -/
def prompts : List (List Char) :=
  ["what do you think".data, "can you".data, "could you".data,
    "would you".data, "tell me".data, "help me".data]

/-- `should_llm_respond` (conversation.py lines 513-550): the pure turn-taking
gate.  The `conversation_history` argument is accepted and ignored, exactly as
in the source. -/
def should_llm_respond (transcript0 : List Char) (_conversation_history : List Msg) :
    Bool :=
  let transcript := pyStrip transcript0
  let words := pyWords transcript
  if words.length < 3 then false
  else if pyEndsWith transcript '?' then true
  else if starters.any (fun st => pyContains (pyLower transcript) st) then true
  else if prompts.any (fun p => pyContains (pyLower transcript) p) then true
  else if words.length ≥ 5 then true
  else false

/-- The WebSocket events `process_speech_segment` can emit
(`StreamEventType` values used in conversation.py lines 356-451), with the
payload fields the claims mention (`text`, `is_final`, audio data). -/
inductive StreamEvent where
  | transcription_final : List Char → StreamEvent
  | response_start : StreamEvent
  | response_text : List Char → Bool → StreamEvent
  | response_audio : List Char → StreamEvent
  | response_end : StreamEvent
  | errorEvent : List Char → StreamEvent
deriving DecidableEq

/-- Per-session mutable state read and written by `process_speech_segment`:
the `is_processing_response` flag and `conversation_history`
(conversation.py lines 305-309). -/
structure SessionState where
  is_processing_response : Bool
  conversation_history : List Msg
deriving DecidableEq

/-- Outcomes of the external service calls one invocation of
`process_speech_segment` makes.  `transcribeResult` is the STT call (with
`Except.error` for an exception anywhere before the length check);
`hasStream` is `hasattr(llm_service, 'generate_conversation_stream')`;
`streamChunks` are the chunks the streaming generator yields before either
finishing (`streamErr = none`) or raising (`streamErr = some e`);
`genResult` is the non-streaming `generate_conversation` call; `ttsResult`
is the TTS synthesis plus audio read-back, producing base64 audio data. -/
structure PipelineEnv where
  transcribeResult : Except (List Char) (List Char)
  hasStream : Bool
  streamChunks : List (List Char)
  streamErr : Option (List Char)
  genResult : Except (List Char) (List Char)
  ttsResult : Except (List Char) (List Char)

/-- The TTS-and-audio tail of the response cycle (conversation.py lines
406-430): append the assistant turn, then either `response_audio` followed by
`response_end`, or — when synthesis raises — the inner `except` clause's
single `error` event. -/
def finishResponse (env : PipelineEnv) (response_text : List Char)
    (events : List StreamEvent) (hist : List Msg) : List StreamEvent × List Msg :=
  let hist2 := hist ++ [⟨"assistant".data, response_text⟩]
  match env.ttsResult with
  | Except.ok audio_base64 =>
    (events ++ [StreamEvent.response_audio audio_base64, StreamEvent.response_end], hist2)
  | Except.error _ =>
    (events ++ [StreamEvent.errorEvent "Response generation failed".data], hist2)

/-- The response cycle of `process_speech_segment` (conversation.py lines
374-443): everything guarded by `should_respond`, from setting
`is_processing_response` and emitting `response_start` through the inner
`try/except/finally`.  Returns the events emitted from `response_start`
onward and the updated history. -/
def generateResponse (env : PipelineEnv) (hist : List Msg) :
    List StreamEvent × List Msg :=
  if env.hasStream then
    let chunkEvents := env.streamChunks.map (fun c => StreamEvent.response_text c false)
    match env.streamErr with
    | some _ =>
      (StreamEvent.response_start :: chunkEvents
        ++ [StreamEvent.errorEvent "Response generation failed".data], hist)
    | none =>
      let full_response := env.streamChunks.flatten
      finishResponse env full_response (StreamEvent.response_start :: chunkEvents) hist
  else
    match env.genResult with
    | Except.error _ =>
      ([StreamEvent.response_start,
        StreamEvent.errorEvent "Response generation failed".data], hist)
    | Except.ok response_text =>
      finishResponse env response_text
        [StreamEvent.response_start, StreamEvent.response_text response_text true] hist

/-- `process_speech_segment` (conversation.py lines 321-451) as a function of
the session state and the environment: returns the new session state and the
list of events sent to the client, in order.  The in-flight guard, the
length check on the transcript, the history append, the gate, the response
cycle and the outer `except` clause follow the source line by line;
`is_processing_response` is `False` on exit from a response cycle because of
the `finally` clause (line 442-443). -/
def processSpeechSegment (env : PipelineEnv) (st : SessionState) :
    SessionState × List StreamEvent :=
  if st.is_processing_response then
    (st, [])
  else
    match env.transcribeResult with
    | Except.error _ =>
      (st, [StreamEvent.errorEvent "Speech processing failed".data])
    | Except.ok transcript =>
      if transcript.isEmpty ∨ (pyStrip transcript).length < 3 then
        (st, [])
      else
        let hist1 := st.conversation_history ++ [⟨"user".data, transcript⟩]
        if should_llm_respond transcript hist1 then
          let gen := generateResponse env hist1
          (⟨false, gen.2⟩, StreamEvent.transcription_final transcript :: gen.1)
        else
          ({ st with conversation_history := hist1 },
            [StreamEvent.transcription_final transcript])

/-- Event shape test: is this a `response_text` event (any finality)? -/
def isTextEvent : StreamEvent → Bool
  | StreamEvent.response_text _ _ => true
  | _ => false

/-- Event shape test: is this a `response_text` event with `is_final = true`? -/
def isFinalTextEvent : StreamEvent → Bool
  | StreamEvent.response_text _ true => true
  | _ => false

/-- A concrete environment for the streaming LLM path: transcription succeeds
with a gate-passing transcript, the streaming generator yields two chunks and
finishes, and TTS succeeds. -/
def c2Env : PipelineEnv :=
  { transcribeResult := Except.ok "tell me something please".data
    hasStream := true
    streamChunks := ["Hello".data, " there".data]
    streamErr := none
    genResult := Except.ok []
    ttsResult := Except.ok "AUDIO".data }

/-- A concrete environment whose transcript passes the length check but fails
the turn-taking gate ("fine thanks okay": 3 words, no question mark, no
greeting, no prompt phrase, fewer than 5 words). -/
def c9Env : PipelineEnv :=
  { transcribeResult := Except.ok "fine thanks okay".data
    hasStream := false
    streamChunks := []
    streamErr := none
    genResult := Except.ok "Reply".data
    ttsResult := Except.ok "AUDIO".data }

/-- The first 19 entries of `c1Inputs`: 10 speech frames then 9 silence
frames, leaving the segmenter one silence frame short of the padding
threshold. -/
def c8Inputs : List (Bool × List Nat) :=
  (List.range 19).map (fun i => (decide (i < 10), [i]))

/-- A segmenter mid-utterance whose buffered run is too short to pass
`min_speech_duration_ms` when the next silence frame crosses the padding
threshold: 2 buffered frames, 9 trailing silence frames counted. -/
def c3ShortState : VADSegmenter :=
  { mkVADSegmenter 16000 30 300 250 with is_speaking := true, speech_frames := [[1], [2]], silence_frames := 9 }

/-- A segmenter mid-utterance with 9 buffered frames and 9 trailing silence
frames counted: the next silence frame crosses the padding threshold with a
duration of 300 ms ≥ 250 ms, so a segment is emitted. -/
def c3LongState : VADSegmenter :=
  { mkVADSegmenter 16000 30 300 250 with is_speaking := true, speech_frames := List.replicate 9 [1], silence_frames := 9 }

end DigitalHuman

namespace DigitalHuman

/-! ### Helper lemmas -/

/-- A `process_frame` call that returns a segment returns the in-order
concatenation of the buffered frames plus the current frame. -/
theorem processFrame_emit_eq (b : Bool) (frame : List Nat) (s : VADSegmenter)
    (seg : List Nat) (h : (processFrame b frame s).2.2 = some seg) :
    seg = (s.speech_frames ++ [frame]).flatten := by
  by_cases hb : b = true
  · simp [processFrame, hb] at h
  · by_cases hsp : s.is_speaking = true
    · by_cases hpad : s.padding_frames ≤ s.silence_frames + 1
      · by_cases hdur : s.min_speech_duration_ms ≤
            (s.speech_frames.length + 1) * s.frame_duration_ms
        · simp [processFrame, hb, hsp, hpad, hdur] at h
          simpa using h.symm
        · simp [processFrame, hb, hsp, hpad, hdur] at h
      · simp [processFrame, hb, hsp, hpad] at h
    · simp [processFrame, hb, hsp] at h

/-- One `process_frame` step preserves the buffer invariant: `speech_frames`
is a contiguous in-order suffix of the frames consumed so far, and is empty
whenever the segmenter is not in a speech run. -/
theorem processFrame_suffix_inv (b : Bool) (f : List Nat) (s : VADSegmenter)
    (l : List (List Nat)) (h1 : s.speech_frames <:+ l)
    (h2 : s.is_speaking = false → s.speech_frames = []) :
    (processFrame b f s).1.speech_frames <:+ l ++ [f]
    ∧ ((processFrame b f s).1.is_speaking = false →
        (processFrame b f s).1.speech_frames = []) := by
  obtain ⟨t, ht⟩ := h1
  by_cases hb : b = true
  · refine ⟨⟨t, ?_⟩, ?_⟩
    · simp [processFrame, hb, ← List.append_assoc, ht]
    · simp [processFrame, hb]
  · by_cases hsp : s.is_speaking = true
    · by_cases hpad : s.padding_frames ≤ s.silence_frames + 1
      · by_cases hdur : s.min_speech_duration_ms ≤
            (s.speech_frames.length + 1) * s.frame_duration_ms
        · exact ⟨by simp [processFrame, hb, hsp, hpad, hdur, vadSegReset],
            by simp [processFrame, hb, hsp, hpad, hdur, vadSegReset]⟩
        · exact ⟨by simp [processFrame, hb, hsp, hpad, hdur, vadSegReset],
            by simp [processFrame, hb, hsp, hpad, hdur, vadSegReset]⟩
      · refine ⟨⟨t, ?_⟩, ?_⟩
        · simp [processFrame, hb, hsp, hpad, ← List.append_assoc, ht]
        · simp [processFrame, hb, hsp, hpad]
    · have hempty : s.speech_frames = [] := h2 (by simpa using hsp)
      refine ⟨?_, ?_⟩
      · simp [processFrame, hb, hsp, hempty]
      · simp [processFrame, hb, hsp, hempty]

/-- Along any run of the segmenter, the buffered `speech_frames` form a
contiguous in-order suffix of all frames consumed, and the buffer is empty
whenever the segmenter is not in a speech run. -/
theorem runSeg_suffix_inv (inputs : List (Bool × List Nat)) (s : VADSegmenter)
    (l : List (List Nat)) (h1 : s.speech_frames <:+ l)
    (h2 : s.is_speaking = false → s.speech_frames = []) :
    (runSeg s inputs).1.speech_frames <:+ l ++ inputs.map Prod.snd
    ∧ ((runSeg s inputs).1.is_speaking = false →
        (runSeg s inputs).1.speech_frames = []) := by
  induction inputs generalizing s l with
  | nil => exact ⟨by simpa using h1, h2⟩
  | cons p rest ih =>
    obtain ⟨b, f⟩ := p
    have hstep := processFrame_suffix_inv b f s l h1 h2
    have := ih (processFrame b f s).1 (l ++ [f]) hstep.1 hstep.2
    simpa [runSeg, List.append_assoc] using this

/-! ### Claim theorems -/

/-- C1 (counterexample): with the default configuration, feeding 10 frames
classified as speech followed by silence frames, the claim says
`process_frame` returns `is_speaking = false` from the 11th call onward; in
the code the 11th call (the first trailing-silence frame, silence run 1 < 10
padding frames) still returns `is_speaking = true`. -/
theorem c1_counterexample :
    ((runSeg (mkVADSegmenter 16000 30 300 250) c1Inputs).2.map Prod.fst)[10]?
      = some true
    ∧ ((runSeg (mkVADSegmenter 16000 30 300 250) c1Inputs).2.map Prod.fst)[10]?
      ≠ some false := by
  decide

/-- C1 (amended): with defaults (`frame_duration_ms = 30`,
`padding_duration_ms = 300`, `min_speech_duration_ms = 250`, hence
`padding_frames = 300 / 30 = 10`), feeding 10 frames classified as speech then
10 classified as silence: `process_frame` returns `is_speaking = true` for the
first 19 calls and `false` on the 20th — the call at which the silence run
reaches `padding_duration_ms / frame_duration_ms` frames — and exactly that
20th call returns the single `SpeechSegment`, containing all 20 frames' bytes
in order. -/
theorem c1_amended_trace :
    (runSeg (mkVADSegmenter 16000 30 300 250) c1Inputs).2.map Prod.fst
      = List.replicate 19 true ++ [false]
    ∧ (runSeg (mkVADSegmenter 16000 30 300 250) c1Inputs).2.map Prod.snd
      = List.replicate 19 none ++ [some ((c1Inputs.map Prod.snd).flatten)]
    ∧ (mkVADSegmenter 16000 30 300 250).padding_frames = 300 / 30 := by
  decide

/-- C3: a `process_frame` call returns a `SpeechSegment` only when the
buffered duration — buffer frame count (current frame included, trailing
silence frames included) times `frame_duration_ms` — is at least
`min_speech_duration_ms`; and whenever the padding threshold is crossed on a
silence frame, the segmenter state is reset to the fresh state in both the
emit branch and the discard branch, a below-minimum run yielding no
segment. -/
theorem c3_min_duration_gate (b : Bool) (frame : List Nat) (s : VADSegmenter) :
    (∀ seg, (processFrame b frame s).2.2 = some seg →
        (s.speech_frames.length + 1) * s.frame_duration_ms ≥ s.min_speech_duration_ms)
    ∧ (b = false → s.is_speaking = true → s.silence_frames + 1 ≥ s.padding_frames →
        (processFrame b frame s).1 = vadSegReset s
        ∧ ((s.speech_frames.length + 1) * s.frame_duration_ms < s.min_speech_duration_ms →
            (processFrame b frame s).2.2 = none)) := by
  constructor
  · intro seg h
    by_cases hb : b = true
    · simp [processFrame, hb] at h
    · by_cases hsp : s.is_speaking = true
      · by_cases hpad : s.padding_frames ≤ s.silence_frames + 1
        · by_cases hdur : s.min_speech_duration_ms ≤
              (s.speech_frames.length + 1) * s.frame_duration_ms
          · exact hdur
          · simp [processFrame, hb, hsp, hpad, hdur] at h
        · simp [processFrame, hb, hsp, hpad] at h
      · simp [processFrame, hb, hsp] at h
  · intro hb hsp hpad
    by_cases hdur : s.min_speech_duration_ms ≤
        (s.speech_frames.length + 1) * s.frame_duration_ms
    · refine ⟨?_, ?_⟩
      · simp [processFrame, hb, hsp, hpad, hdur]
      · intro hlt
        omega
    · refine ⟨?_, ?_⟩
      · simp [processFrame, hb, hsp, hpad, hdur]
      · intro _
        simp [processFrame, hb, hsp, hpad, hdur]

/-- Witness for C3 at concrete states: on the threshold-crossing silence
frame, the long run (10 frames × 30 ms = 300 ms ≥ 250 ms) satisfies the
duration bound, while the short run (3 frames × 30 ms = 90 ms < 250 ms) is
discarded — no segment — and both runs leave the segmenter reset. -/
theorem c3_witness :
    ((c3LongState.speech_frames.length + 1) * c3LongState.frame_duration_ms
        ≥ c3LongState.min_speech_duration_ms)
    ∧ (processFrame false [9] c3LongState).1 = vadSegReset c3LongState
    ∧ (processFrame false [7] c3ShortState).1 = vadSegReset c3ShortState
    ∧ (processFrame false [7] c3ShortState).2.2 = none :=
  ⟨(c3_min_duration_gate false [9] c3LongState).1
      ((c3LongState.speech_frames ++ [[9]]).flatten) (by decide),
    ((c3_min_duration_gate false [9] c3LongState).2 rfl rfl (by decide)).1,
    ((c3_min_duration_gate false [7] c3ShortState).2 rfl rfl (by decide)).1,
    ((c3_min_duration_gate false [7] c3ShortState).2 rfl rfl (by decide)).2 (by decide)⟩

/-- C7: `reset()` is idempotent, and on a segmenter built by `__init__` with
any configuration and then driven to an arbitrary mutable state
(`is_speaking`, `speech_frames`, `silence_frames`), one `reset()` restores
exactly the freshly constructed instance: empty buffer, `is_speaking = false`,
silence counter 0, configuration untouched. -/
theorem c7_reset_idempotent_fresh (sample_rate frame_duration_ms
    padding_duration_ms min_speech_duration_ms : Nat) (b : Bool)
    (frames : List (List Nat)) (n : Nat) :
    (∀ s : VADSegmenter, vadSegReset (vadSegReset s) = vadSegReset s)
    ∧ vadSegReset { mkVADSegmenter sample_rate frame_duration_ms padding_duration_ms min_speech_duration_ms with is_speaking := b, speech_frames := frames, silence_frames := n }
      = mkVADSegmenter sample_rate frame_duration_ms padding_duration_ms min_speech_duration_ms :=
  ⟨fun _ => rfl, rfl⟩

/-- C8: for every frame sequence fed from a fresh segmenter, an emitted
`SpeechSegment` is the in-order concatenation of the buffered frames plus the
closing frame, its byte length is the sum of those frames' byte lengths, and
those frames are a contiguous in-order suffix of the input frames — no bytes
lost, duplicated or reordered. -/
theorem c8_segment_concat (sample_rate frame_duration_ms padding_duration_ms
    min_speech_duration_ms : Nat) (inputs : List (Bool × List Nat)) (b : Bool)
    (frame : List Nat) (seg : List Nat)
    (h : (processFrame b frame (runSeg (mkVADSegmenter sample_rate
        frame_duration_ms padding_duration_ms min_speech_duration_ms) inputs).1).2.2
      = some seg) :
    seg = ((runSeg (mkVADSegmenter sample_rate frame_duration_ms
        padding_duration_ms min_speech_duration_ms) inputs).1.speech_frames
        ++ [frame]).flatten
    ∧ seg.length = (((runSeg (mkVADSegmenter sample_rate frame_duration_ms
        padding_duration_ms min_speech_duration_ms) inputs).1.speech_frames
        ++ [frame]).map List.length).sum
    ∧ (runSeg (mkVADSegmenter sample_rate frame_duration_ms padding_duration_ms
        min_speech_duration_ms) inputs).1.speech_frames ++ [frame]
      <:+ inputs.map Prod.snd ++ [frame] := by
  have hconcat := processFrame_emit_eq b frame _ seg h
  have hsuffix := runSeg_suffix_inv inputs
    (mkVADSegmenter sample_rate frame_duration_ms padding_duration_ms
      min_speech_duration_ms) [] (by simp [mkVADSegmenter]) (fun _ => rfl)
  refine ⟨hconcat, ?_, ?_⟩
  · rw [hconcat]
    exact List.length_flatten _
  · obtain ⟨t, ht⟩ := hsuffix.1
    exact ⟨t, by rw [← List.append_assoc, ht]; simp⟩

/-- Witness for C8: a fresh default segmenter fed 10 speech frames and 9
silence frames, closed by a 10th silence frame, emits the segment
`[0, …, 19]` — the concatenation of all 20 one-byte frames, of length 20,
a suffix of the inputs. -/
theorem c8_witness :
    List.range 20
      = ((runSeg (mkVADSegmenter 16000 30 300 250) c8Inputs).1.speech_frames
        ++ [[19]]).flatten
    ∧ (List.range 20).length
      = (((runSeg (mkVADSegmenter 16000 30 300 250) c8Inputs).1.speech_frames
        ++ [[19]]).map List.length).sum
    ∧ (runSeg (mkVADSegmenter 16000 30 300 250) c8Inputs).1.speech_frames ++ [[19]]
      <:+ c8Inputs.map Prod.snd ++ [[19]] :=
  c8_segment_concat 16000 30 300 250 c8Inputs false [19] (List.range 20) (by decide)

/-- Every event in the streamed-chunk event list is a `response_text`. -/
theorem all_text_map (cs : List (List Char)) :
    (cs.map (fun c => StreamEvent.response_text c false)).all isTextEvent = true := by
  induction cs with
  | nil => rfl
  | cons c cs ih =>
    rw [List.map_cons, List.all_cons, ih]
    rfl

/-- No event in the streamed-chunk event list carries `is_final = true`. -/
theorem all_nonfinal_map (cs : List (List Char)) :
    (cs.map (fun c => StreamEvent.response_text c false)).all
      (fun e => !isFinalTextEvent e) = true := by
  induction cs with
  | nil => rfl
  | cons c cs ih =>
    rw [List.map_cons, List.all_cons, ih]
    rfl

/-- C5: the turn-taking gate on the six literal inputs of the claim, for any
conversation history (the history argument is ignored by the source):
"ok" → false, "How are you?" → true, "hello there everyone" → true,
"can you help me" → true, "fine thanks" → false,
"I am doing great today" → true. -/
theorem c5_gate_literals (hist : List Msg) :
    should_llm_respond "ok".data hist = false
    ∧ should_llm_respond "How are you?".data hist = true
    ∧ should_llm_respond "hello there everyone".data hist = true
    ∧ should_llm_respond "can you help me".data hist = true
    ∧ should_llm_respond "fine thanks".data hist = false
    ∧ should_llm_respond "I am doing great today".data hist = true :=
  ⟨rfl, rfl, rfl, rfl, rfl, rfl⟩

/-- C10: a finalized segment whose transcription is empty, or shorter than 3
characters after stripping whitespace, is silently dropped:
`process_speech_segment` sends no event at all — in particular no
`transcription_final` — leaves the conversation history unchanged, and starts
no response cycle. -/
theorem c10_short_transcript_dropped (env : PipelineEnv) (st : SessionState)
    (t : List Char) (h1 : env.transcribeResult = Except.ok t)
    (h2 : t.isEmpty ∨ (pyStrip t).length < 3) :
    processSpeechSegment env st = (st, []) := by
  have h2' : t = [] ∨ (pyStrip t).length < 3 := by simpa using h2
  by_cases hp : st.is_processing_response = true
  · simp [processSpeechSegment, hp]
  · simp [processSpeechSegment, hp, h1, h2']

/-- Witness for C10: the transcript "hi" (2 characters after stripping) is
dropped with no events and no state change. -/
theorem c10_witness :
    processSpeechSegment ⟨Except.ok "hi".data, false, [], none, Except.ok [], Except.ok []⟩ ⟨false, []⟩
      = (⟨false, []⟩, []) :=
  c10_short_transcript_dropped _ _ "hi".data rfl (by decide)

/-- C4: the single-flight invariant of `process_speech_segment`.  While
`is_processing_response` is `true`, a second finalized segment is dropped —
no events, no state change, in particular no second response cycle is
started.  And from an idle state, one full call always ends with
`is_processing_response = false` again, on every path: drop, transcription
error, gate refusal, successful cycle, or failed cycle (the `finally`
clause). -/
theorem c4_single_flight (env : PipelineEnv) (st : SessionState) :
    (st.is_processing_response = true → processSpeechSegment env st = (st, []))
    ∧ (st.is_processing_response = false →
        (processSpeechSegment env st).1.is_processing_response = false) := by
  constructor
  · intro h
    simp [processSpeechSegment, h]
  · intro h
    rcases htr : env.transcribeResult with e | t
    · simp [processSpeechSegment, h, htr]
    · by_cases hshort : t = [] ∨ (pyStrip t).length < 3
      · simp [processSpeechSegment, h, htr, hshort]
      · by_cases hgate : should_llm_respond t
            (st.conversation_history ++ [⟨"user".data, t⟩]) = true
        · simp [processSpeechSegment, h, htr, hshort, hgate]
        · simp [processSpeechSegment, h, htr, hshort, hgate]

/-- Witness for C4: with a busy session the segment is dropped wholesale;
with an idle session the in-flight flag is `false` again after the call. -/
theorem c4_witness :
    processSpeechSegment c2Env ⟨true, []⟩ = (⟨true, []⟩, [])
    ∧ (processSpeechSegment c2Env ⟨false, []⟩).1.is_processing_response = false :=
  ⟨(c4_single_flight c2Env ⟨true, []⟩).1 rfl,
    (c4_single_flight c2Env ⟨false, []⟩).2 rfl⟩

/-- C9 (counterexample): the transcript "fine thanks okay" passes the length
check but fails the turn-taking gate, yet processing it appends the user turn
to the (initially empty) conversation history — the history does not stay
unchanged as the claim requires. -/
theorem c9_counterexample :
    should_llm_respond "fine thanks okay".data
        [⟨"user".data, "fine thanks okay".data⟩] = false
    ∧ (processSpeechSegment c9Env ⟨false, []⟩).1.conversation_history
      = [⟨"user".data, "fine thanks okay".data⟩]
    ∧ (processSpeechSegment c9Env ⟨false, []⟩).1.conversation_history
      ≠ ([] : List Msg) := by
  decide

/-- C9 (amended): the user turn is appended to the conversation history
before the turn-taking gate is evaluated; when the gate returns false the
history still gains exactly the user turn, and no response cycle is started —
the only event sent is `transcription_final`. -/
theorem c9_amended_history_appended (env : PipelineEnv) (st : SessionState)
    (t : List Char) (h0 : st.is_processing_response = false)
    (h1 : env.transcribeResult = Except.ok t)
    (h2 : ¬(t.isEmpty ∨ (pyStrip t).length < 3))
    (h3 : should_llm_respond t (st.conversation_history ++ [⟨"user".data, t⟩])
      = false) :
    (processSpeechSegment env st).1.conversation_history
      = st.conversation_history ++ [⟨"user".data, t⟩]
    ∧ (processSpeechSegment env st).2 = [StreamEvent.transcription_final t] := by
  have h2' : ¬(t = [] ∨ (pyStrip t).length < 3) := by simpa using h2
  constructor
  · simp [processSpeechSegment, h0, h1, h2', h3]
  · simp [processSpeechSegment, h0, h1, h2', h3]

/-- Witness for C9 (amended): the gate-refused transcript "fine thanks okay"
still lands in the history, and only `transcription_final` is emitted. -/
theorem c9_witness :
    (processSpeechSegment c9Env ⟨false, []⟩).1.conversation_history
      = [] ++ [⟨"user".data, "fine thanks okay".data⟩]
    ∧ (processSpeechSegment c9Env ⟨false, []⟩).2
      = [StreamEvent.transcription_final "fine thanks okay".data] :=
  c9_amended_history_appended c9Env ⟨false, []⟩ "fine thanks okay".data rfl rfl
    (by decide) (by decide)

/-- C6: the VAD classifiers fail safe.  If the injected model call raises
(`Except.error`), `SileroVAD.is_speech` and `WebRTCVAD.is_speech` return
`false` — the frame is treated as non-speech and, the functions being total,
no error propagates to the segmenter.  Likewise a rejecting classifier
(probability not above threshold, WebRTC verdict `false`, or an unsupported
sample rate) yields `false`. -/
theorem c6_classifier_failsafe (threshold : ℚ) (p : ℚ)
    (model : List Nat → Except String ℚ)
    (vadModel : List Nat → Nat → Except String Bool)
    (audio_chunk : List Nat) (sample_rate : Nat) (e e' : String) :
    (model audio_chunk = Except.error e →
        sileroIsSpeech threshold model audio_chunk = false)
    ∧ (model audio_chunk = Except.ok p → p ≤ threshold →
        sileroIsSpeech threshold model audio_chunk = false)
    ∧ (vadModel (webrtcPrepare audio_chunk sample_rate) sample_rate
          = Except.error e' →
        webrtcIsSpeech vadModel audio_chunk sample_rate = false)
    ∧ (vadModel (webrtcPrepare audio_chunk sample_rate) sample_rate
          = Except.ok false →
        webrtcIsSpeech vadModel audio_chunk sample_rate = false)
    ∧ (¬(sample_rate = 8000 ∨ sample_rate = 16000 ∨ sample_rate = 32000
          ∨ sample_rate = 48000) →
        webrtcIsSpeech vadModel audio_chunk sample_rate = false) := by
  refine ⟨?_, ?_, ?_, ?_, ?_⟩
  · intro h
    simp [sileroIsSpeech, h]
  · intro h hle
    simp [sileroIsSpeech, h, not_lt.mpr hle]
  · intro h
    by_cases hsr : sample_rate = 8000 ∨ sample_rate = 16000 ∨ sample_rate = 32000
        ∨ sample_rate = 48000
    · simp [webrtcIsSpeech, hsr, h]
    · simp [webrtcIsSpeech, hsr]
  · intro h
    by_cases hsr : sample_rate = 8000 ∨ sample_rate = 16000 ∨ sample_rate = 32000
        ∨ sample_rate = 48000
    · simp [webrtcIsSpeech, hsr, h]
    · simp [webrtcIsSpeech, hsr]
  · intro hsr
    simp [webrtcIsSpeech, hsr]

/-- Witness for C6: an always-raising model makes both classifiers return
`false`; a below-threshold probability and an unsupported sample rate do
too. -/
theorem c6_witness :
    sileroIsSpeech (1/2) (fun _ => Except.error "boom") [1, 2] = false
    ∧ sileroIsSpeech (1/2) (fun _ => Except.ok (1/4)) [1, 2] = false
    ∧ webrtcIsSpeech (fun _ _ => Except.error "boom") [1, 2] 16000 = false
    ∧ webrtcIsSpeech (fun _ _ => Except.ok false) [1, 2] 16000 = false
    ∧ webrtcIsSpeech (fun _ _ => Except.ok true) [1, 2] 44100 = false :=
  ⟨(c6_classifier_failsafe (1/2) 0 (fun _ => Except.error "boom")
      (fun _ _ => Except.ok true) [1, 2] 16000 "boom" "boom").1 rfl,
    (c6_classifier_failsafe (1/2) (1/4) (fun _ => Except.ok (1/4))
      (fun _ _ => Except.ok true) [1, 2] 16000 "boom" "boom").2.1 rfl (by norm_num),
    (c6_classifier_failsafe (1/2) 0 (fun _ => Except.ok 0)
      (fun _ _ => Except.error "boom") [1, 2] 16000 "boom" "boom").2.2.1 rfl,
    (c6_classifier_failsafe (1/2) 0 (fun _ => Except.ok 0)
      (fun _ _ => Except.ok false) [1, 2] 16000 "boom" "boom").2.2.2.1 rfl,
    (c6_classifier_failsafe (1/2) 0 (fun _ => Except.ok 0)
      (fun _ _ => Except.ok true) [1, 2] 44100 "boom" "boom").2.2.2.2 (by decide)⟩

/-- C2 (counterexample): in the streaming branch the code never sends a
`response_text` with `is_final = true`.  With two streamed chunks and a
successful cycle, the emitted events are `response_start`, two
`response_text{is_final=false}`, `response_audio`, `response_end`: text
events are present (count 2) and none of them is final (count 0), which
falsifies the claimed "streamed `response_text` events with `is_final=false`
followed by one `response_text` with `is_final=true`". -/
theorem c2_counterexample :
    (generateResponse c2Env []).1
      = [StreamEvent.response_start,
          StreamEvent.response_text "Hello".data false,
          StreamEvent.response_text " there".data false,
          StreamEvent.response_audio "AUDIO".data,
          StreamEvent.response_end]
    ∧ (generateResponse c2Env []).1.countP (fun e => isTextEvent e) = 2
    ∧ (generateResponse c2Env []).1.countP (fun e => isFinalTextEvent e) = 0 := by
  decide

/-- C2 (amended): within one response cycle the handler emits
`response_start`, then `response_text` events — in the streaming branch zero
or more chunks all with `is_final = false` and no final-marker event, in the
non-streaming branch a single one with `is_final = true` — then
`response_audio` followed by `response_end`; on a generation or synthesis
failure the remainder of this sequence is replaced by a single `error`
event. -/
theorem c2_amended_cycle_shape (env : PipelineEnv) (hist : List Msg) :
    ∃ texts tail,
      (generateResponse env hist).1 = StreamEvent.response_start :: (texts ++ tail)
      ∧ texts.all isTextEvent = true
      ∧ ((∃ a, tail = [StreamEvent.response_audio a, StreamEvent.response_end])
        ∨ ∃ m, tail = [StreamEvent.errorEvent m])
      ∧ ((env.hasStream = true ∧ texts.all (fun e => !isFinalTextEvent e) = true)
        ∨ (env.hasStream = false ∧ (∃ tx, texts = [StreamEvent.response_text tx true]))
        ∨ (env.hasStream = false ∧ texts = [])) := by
  by_cases hs : env.hasStream = true
  · rcases herr : env.streamErr with _ | m
    · rcases htts : env.ttsResult with e | a
      · exact ⟨env.streamChunks.map (fun c => StreamEvent.response_text c false),
          [StreamEvent.errorEvent "Response generation failed".data],
          by simp [generateResponse, hs, herr, finishResponse, htts],
          all_text_map _, Or.inr ⟨_, rfl⟩, Or.inl ⟨hs, all_nonfinal_map _⟩⟩
      · exact ⟨env.streamChunks.map (fun c => StreamEvent.response_text c false),
          [StreamEvent.response_audio a, StreamEvent.response_end],
          by simp [generateResponse, hs, herr, finishResponse, htts],
          all_text_map _, Or.inl ⟨a, rfl⟩, Or.inl ⟨hs, all_nonfinal_map _⟩⟩
    · exact ⟨env.streamChunks.map (fun c => StreamEvent.response_text c false),
        [StreamEvent.errorEvent "Response generation failed".data],
        by simp [generateResponse, hs, herr],
        all_text_map _, Or.inr ⟨_, rfl⟩, Or.inl ⟨hs, all_nonfinal_map _⟩⟩
  · have hs' : env.hasStream = false := by simpa using hs
    rcases hgen : env.genResult with e | r
    · exact ⟨[], [StreamEvent.errorEvent "Response generation failed".data],
        by simp [generateResponse, hs', hgen], rfl, Or.inr ⟨_, rfl⟩,
        Or.inr (Or.inr ⟨hs', rfl⟩)⟩
    · rcases htts : env.ttsResult with e | a
      · exact ⟨[StreamEvent.response_text r true],
          [StreamEvent.errorEvent "Response generation failed".data],
          by simp [generateResponse, hs', hgen, finishResponse, htts], rfl,
          Or.inr ⟨_, rfl⟩, Or.inr (Or.inl ⟨hs', r, rfl⟩)⟩
      · exact ⟨[StreamEvent.response_text r true],
          [StreamEvent.response_audio a, StreamEvent.response_end],
          by simp [generateResponse, hs', hgen, finishResponse, htts], rfl,
          Or.inl ⟨a, rfl⟩, Or.inr (Or.inl ⟨hs', r, rfl⟩)⟩

end DigitalHuman
